import Mathlib

/-!
Verification of the Lumina inventory-management catalog core.

The definitions below are a shallow embedding of the catalog store,
aggregation engine, and query/filter engine found in `src/App.tsx` and
`src/components/StatCard.tsx` (the `InventoryTable` component).  Prices are
modelled as rationals, quantities as naturals, JavaScript `Set<string>` as
`Finset String`, and JavaScript arrays as Lean lists.  The JavaScript
number-to-string rendering used when serializing prices to CSV is abstracted
as an explicit `priceRepr` parameter, since no verified property depends on
the concrete digits it produces.
-/

/-- Category enumeration from `types.ts`. -/
inductive Category where
  | electronics
  | furniture
  | clothing
  | office
  | other
deriving DecidableEq

/-- The string value carried by each `Category` enum member in `types.ts`. -/
def Category.label : Category → String
  | .electronics => "Electronics"
  | .furniture => "Furniture"
  | .clothing => "Clothing"
  | .office => "Office Supplies"
  | .other => "Other"

/-- Product record from `types.ts`.  `lastUpdated` is the ISO timestamp
string; `history` is the optional quantity history (absent = `[]`). -/
structure Product where
  id : String
  name : String
  sku : String
  category : Category
  price : ℚ
  quantity : ℕ
  description : String
  lastUpdated : String
  history : List ℕ
deriving DecidableEq

/-- Dashboard statistics record from `types.ts`. -/
structure DashboardStats where
  totalProducts : ℕ
  totalValue : ℚ
  lowStockItems : ℕ
  outOfStockItems : ℕ
deriving DecidableEq

/-- The `stats` memo of `App.tsx` (lines 119-126): total count, total value
as a left fold of `price * quantity`, and the two threshold counts. -/
def stats (products : List Product) : DashboardStats :=
  { totalProducts := products.length
    totalValue := products.foldl (fun acc p => acc + p.price * (p.quantity : ℚ)) 0
    lowStockItems := (products.filter (fun p => decide (p.quantity < 10))).length
    outOfStockItems := (products.filter (fun p => p.quantity == 0)).length }

/-- Character-list version of JavaScript `String.prototype.startsWith`. -/
def startsWithChars : List Char → List Char → Bool
  | [], _ => true
  | _ :: _, [] => false
  | a :: as, b :: bs => a == b && startsWithChars as bs

/-- Character-list version of JavaScript `String.prototype.includes`:
`containsChars needle hay` holds when `needle` occurs contiguously in
`hay`. -/
def containsChars (needle : List Char) : List Char → Bool
  | [] => needle.isEmpty
  | c :: rest => startsWithChars needle (c :: rest) || containsChars needle rest

/-- Lower-casing of a character list, modelling `toLowerCase()`. -/
def lowerChars (l : List Char) : List Char :=
  l.map Char.toLower

/-- The `matchesSearch` predicate of `InventoryTable` (StatCard.tsx lines
103-104): case-insensitive substring match of the search term against the
product name or SKU. -/
def matchesSearch (searchTerm : String) (p : Product) : Bool :=
  containsChars (lowerChars searchTerm.data) (lowerChars p.name.data) ||
    containsChars (lowerChars searchTerm.data) (lowerChars p.sku.data)

/-- The `matchesCategory` predicate (StatCard.tsx line 105). -/
def matchesCategory (categoryFilter : String) (p : Product) : Bool :=
  categoryFilter == "All" || p.category.label == categoryFilter

/-- The `matchesStock` predicate (StatCard.tsx lines 107-114): the stock
filter buckets, defaulting to `true` for any other filter string. -/
def matchesStock (stockFilter : String) (p : Product) : Bool :=
  if stockFilter == "In Stock" then decide (p.quantity ≥ 10)
  else if stockFilter == "Low Stock" then
    decide (p.quantity > 0) && decide (p.quantity < 10)
  else if stockFilter == "Out of Stock" then p.quantity == 0
  else true

/-- The `filteredProducts` computation (StatCard.tsx lines 102-117):
conjunction of the three predicates over the product list. -/
def filteredProducts (products : List Product)
    (searchTerm categoryFilter stockFilter : String) : List Product :=
  products.filter (fun p =>
    matchesSearch searchTerm p && matchesCategory categoryFilter p &&
      matchesStock stockFilter p)

/-- The `handleDeleteProduct` handler (App.tsx lines 156-160); the
`window.confirm` gate is the `confirm` flag. -/
def handleDeleteProduct (confirm : Bool) (id : String)
    (products : List Product) : List Product :=
  if confirm then products.filter (fun p => p.id != id) else products

/-- The `handleBatchDelete` handler (App.tsx lines 162-166). -/
def handleBatchDelete (confirm : Bool) (ids : List String)
    (products : List Product) : List Product :=
  if confirm then products.filter (fun p => !(ids.contains p.id)) else products

/-- The `handleBatchLowStock` handler (App.tsx lines 168-170): set quantity
to 5 on every matching record, leave the rest alone. -/
def handleBatchLowStock (ids : List String) (products : List Product) :
    List Product :=
  products.map (fun p => if ids.contains p.id then { p with quantity := 5 } else p)

/-- Modelled from the spec (section 4.1 `batchSetQuantity`): the claimed
behaviour also stamps `lastUpdated` with the current time `now`.  Used only
to compare the spec's wording with `handleBatchLowStock`. -/
def batchSetQuantitySpec (now : String) (ids : List String) (qty : ℕ)
    (products : List Product) : List Product :=
  products.map (fun p =>
    if ids.contains p.id then { p with quantity := qty, lastUpdated := now } else p)

/-- The `handleSelectAll` handler (StatCard.tsx lines 120-132): tri-state
select-all over the filtered view, with the `Set` copy's `delete`/`add`
loops rendered as folds. -/
def handleSelectAll (filtered : List Product) (selectedIds : Finset String) :
    Finset String :=
  let allFilteredSelected :=
    decide (0 < filtered.length) &&
      filtered.all (fun p => decide (p.id ∈ selectedIds))
  if allFilteredSelected then
    filtered.foldl (fun s p => s.erase p.id) selectedIds
  else
    filtered.foldl (fun s p => insert p.id s) selectedIds

/-- The `toggleSelection` handler (StatCard.tsx lines 134-142). -/
def toggleSelection (id : String) (selectedIds : Finset String) : Finset String :=
  if id ∈ selectedIds then selectedIds.erase id else insert id selectedIds

/-- JavaScript `Array.from(set)`, modelled as an enumeration of the finite
set in sorted order (the enumeration order is irrelevant downstream, where
the array is only tested for membership via `includes`). -/
def selectionArray (selectedIds : Finset String) : List String :=
  selectedIds.sort (· ≤ ·)

/-- The `handleBatchDeleteClick` handler (StatCard.tsx lines 149-152):
invoke the batch delete with the selected ids, then `clearSelection`. -/
def handleBatchDeleteClick (confirm : Bool) (products : List Product)
    (selectedIds : Finset String) : List Product × Finset String :=
  (handleBatchDelete confirm (selectionArray selectedIds) products, ∅)

/-- The `handleBatchLowStockClick` handler (StatCard.tsx lines 154-157). -/
def handleBatchLowStockClick (products : List Product)
    (selectedIds : Finset String) : List Product × Finset String :=
  (handleBatchLowStock (selectionArray selectedIds) products, ∅)

/-- JavaScript `Array.prototype.join(sep)`. -/
def joinSep (sep : String) : List String → String
  | [] => ""
  | [x] => x
  | x :: y :: xs => x ++ sep ++ joinSep sep (y :: xs)

/-- CSV field quoting used for `name` and `description` (StatCard.tsx lines
167 and 172): double every internal quote, wrap the field in quotes. -/
def quoteField (s : String) : String :=
  "\"" ++ ⟨(s.data.map (fun c => if c = '"' then ['"', '"'] else [c])).flatten⟩ ++ "\""

/-- The CSV header list (StatCard.tsx line 162). -/
def csvHeaders : List String :=
  ["ID", "Name", "SKU", "Category", "Price", "Quantity", "Description", "Last Updated"]

/-- The field list of one CSV row (StatCard.tsx lines 165-174).  `priceRepr`
abstracts JavaScript's number-to-string rendering of the price. -/
def csvFields (priceRepr : ℚ → String) (p : Product) : List String :=
  [p.id, quoteField p.name, p.sku, p.category.label, priceRepr p.price,
    toString p.quantity, quoteField p.description, p.lastUpdated]

/-- The `csvContent` string (StatCard.tsx lines 163-175): joined header row
followed by one joined row per visible product, all joined by newlines. -/
def csvContent (priceRepr : ℚ → String) (filtered : List Product) : String :=
  joinSep "\n"
    (joinSep "," csvHeaders :: filtered.map (fun p => joinSep "," (csvFields priceRepr p)))

/-- The `handleExportCSV` handler (StatCard.tsx lines 159-185): `none` when
the filtered view is empty (early return, no artifact), otherwise the CSV
text that is handed to the download link. -/
def handleExportCSV (priceRepr : ℚ → String) (filtered : List Product) :
    Option String :=
  if filtered.length = 0 then none else some (csvContent priceRepr filtered)

/-- The initial mock catalog (App.tsx lines 27-83); `now` stands for the
`new Date().toISOString()` evaluated at module load. -/
def INITIAL_PRODUCTS (now : String) : List Product :=
  [{ id := "1", name := "Ergo Chair Ultra", sku := "FUR-001",
     category := .furniture, price := 349.99, quantity := 15,
     description := "High-end ergonomic office chair with lumbar support.",
     lastUpdated := now, history := [12, 15, 13, 18, 15, 20, 15] },
   { id := "2", name := "Wireless Mech Keyboard", sku := "ELE-045",
     category := .electronics, price := 129.50, quantity := 4,
     description := "Mechanical keyboard with RGB and brown switches.",
     lastUpdated := now, history := [8, 6, 5, 7, 5, 4, 4] },
   { id := "3", name := "Standing Desk Frame", sku := "FUR-022",
     category := .furniture, price := 299.00, quantity := 8,
     description := "Dual motor electric standing desk frame.",
     lastUpdated := now, history := [5, 8, 12, 10, 9, 8, 8] },
   { id := "4", name := "USB-C Docking Station", sku := "ELE-102",
     category := .electronics, price := 89.99, quantity := 42,
     description := "12-in-1 docking station for laptops.",
     lastUpdated := now, history := [30, 35, 32, 40, 45, 42, 42] },
   { id := "5", name := "Cotton Hoodie", sku := "CLO-552",
     category := .clothing, price := 45.00, quantity := 120,
     description := "Premium heavyweight cotton hoodie.",
     lastUpdated := now, history := [150, 140, 135, 130, 125, 120, 120] }]

/-! ### Helper lemmas -/

lemma foldl_value (l : List Product) (a : ℚ) :
    l.foldl (fun acc p => acc + p.price * (p.quantity : ℚ)) a
      = a + (l.map (fun p => p.price * (p.quantity : ℚ))).sum := by
  induction l generalizing a with
  | nil => simp
  | cons p l ih => simp [List.foldl_cons, ih]; ring

lemma containsChars_nil (hay : List Char) : containsChars [] hay = true := by
  cases hay <;> simp [containsChars, startsWithChars]

/-! ### Claims -/

/-- C4: `computeStats` returns `totalProducts` = number of records,
`totalValue` = the sum over all records of `price * quantity`, and
`outOfStockItems` = the number of records with `quantity == 0`; on the
five-record initial catalog with quantities `[15, 4, 8, 42, 120]` it yields
`lowStockItems = 2`, `outOfStockItems = 0`, `totalProducts = 5`. -/
theorem computeStats_totals :
    (∀ products,
        (stats products).totalProducts = products.length ∧
        (stats products).totalValue
            = (products.map (fun p => p.price * (p.quantity : ℚ))).sum ∧
        (stats products).outOfStockItems
            = products.countP (fun p => p.quantity == 0)) ∧
    (∀ now, (stats (INITIAL_PRODUCTS now)).lowStockItems = 2 ∧
        (stats (INITIAL_PRODUCTS now)).outOfStockItems = 0 ∧
        (stats (INITIAL_PRODUCTS now)).totalProducts = 5) := by
  constructor
  · intro products
    refine ⟨rfl, ?_, ?_⟩
    · simpa using foldl_value products 0
    · simp [stats, List.countP_eq_length_filter]
  · intro now
    exact ⟨rfl, rfl, rfl⟩

/-- C6: `filteredView` is a pure function of snapshot and filter spec (it is
a function in this embedding), applies the search, category and stock
predicates conjunctively while preserving snapshot order (it is a sublist),
and the all-default spec `("", "All", "All")` returns the snapshot
unchanged. -/
theorem filteredView_conjunctive_default :
    (∀ products searchTerm cat stock p,
        p ∈ filteredProducts products searchTerm cat stock ↔
          p ∈ products ∧ matchesSearch searchTerm p = true ∧
            matchesCategory cat p = true ∧ matchesStock stock p = true) ∧
    (∀ products searchTerm cat stock,
        (filteredProducts products searchTerm cat stock).Sublist products) ∧
    (∀ products, filteredProducts products "" "All" "All" = products) := by
  refine ⟨?_, ?_, ?_⟩
  · intro products s c st p
    simp [filteredProducts, List.mem_filter, and_assoc]
  · intro products s c st
    exact List.filter_sublist _
  · intro products
    apply List.filter_eq_self.mpr
    intro p _
    simp [matchesSearch, matchesCategory, matchesStock, lowerChars,
      containsChars_nil]

/-- C8: with an empty filtered view, `selectAllVisible` is a no-op on every
selection set: the all-selected test fails on an empty view and the union
branch adds nothing. -/
theorem selectAll_empty_view_noop :
    ∀ sel : Finset String, handleSelectAll [] sel = sel := by
  intro sel
  simp [handleSelectAll]

/-- C9: with an empty filtered view, the CSV export produces no artifact at
all (not even a header-only file): the handler returns before building any
output text. -/
theorem export_empty_view_none :
    ∀ priceRepr : ℚ → String, handleExportCSV priceRepr [] = none := by
  intro priceRepr
  rfl

/-- C10: both batch actions (delete selected, mark as low stock) end by
clearing the selection set, whatever was selected and whether or not the
selected ids exist in the catalog (and, for delete, whether or not the
confirm dialog was accepted). -/
theorem batch_actions_clear_selection :
    ∀ (confirm : Bool) (products : List Product) (sel : Finset String),
      (handleBatchDeleteClick confirm products sel).2 = ∅ ∧
      (handleBatchLowStockClick products sel).2 = ∅ := by
  intro confirm products sel
  exact ⟨rfl, rfl⟩

lemma foldl_erase_eq (l : List Product) (s : Finset String) :
    l.foldl (fun t p => t.erase p.id) s = s \ (l.map Product.id).toFinset := by
  induction l generalizing s with
  | nil => simp
  | cons p l ih =>
      rw [List.foldl_cons, ih]
      ext x
      simp only [Finset.mem_sdiff, Finset.mem_erase, List.map_cons,
        List.toFinset_cons, Finset.mem_insert, List.mem_toFinset]
      tauto

lemma foldl_insert_eq (l : List Product) (s : Finset String) :
    l.foldl (fun t p => insert p.id t) s = s ∪ (l.map Product.id).toFinset := by
  induction l generalizing s with
  | nil => simp
  | cons p l ih =>
      rw [List.foldl_cons, ih]
      ext x
      simp only [Finset.mem_union, Finset.mem_insert, List.map_cons,
        List.toFinset_cons, List.mem_toFinset]
      tauto

/-- C5: `selectAllVisible` is tri-state.  On a non-empty filtered view: if
every visible id is already selected, exactly those ids are removed (ids
outside the view stay selected, via set difference); otherwise every
visible id is added by union, keeping all previously selected ids. -/
theorem selectAllVisible_tristate (filtered : List Product)
    (sel : Finset String) (hne : filtered ≠ []) :
    ((∀ p ∈ filtered, p.id ∈ sel) →
        handleSelectAll filtered sel = sel \ (filtered.map Product.id).toFinset) ∧
    ((¬ ∀ p ∈ filtered, p.id ∈ sel) →
        handleSelectAll filtered sel = sel ∪ (filtered.map Product.id).toFinset) := by
  have hlen : 0 < filtered.length := List.length_pos.mpr hne
  constructor
  · intro hall
    have hcond : (decide (0 < filtered.length) &&
        filtered.all (fun p => decide (p.id ∈ sel))) = true := by
      simp [hlen, List.all_eq_true]
      exact hall
    simp only [handleSelectAll, hcond, if_true]
    exact foldl_erase_eq filtered sel
  · intro hnall
    have hcond : (decide (0 < filtered.length) &&
        filtered.all (fun p => decide (p.id ∈ sel))) = false := by
      simp [hlen, List.all_eq_true]
      push_neg at hnall
      exact hnall
    simp only [handleSelectAll, hcond, Bool.false_eq_true, if_false]
    exact foldl_insert_eq filtered sel

/-- Concrete product used by the C5 witness (id "1"). -/
def wA : Product :=
  { id := "1", name := "A", sku := "SKU-A", category := .other, price := 1,
    quantity := 1, description := "", lastUpdated := "t", history := [] }

/-- Concrete product used by the C5 witness (id "2"). -/
def wB : Product :=
  { wA with id := "2", name := "B", sku := "SKU-B" }

/-- Concrete product used by the C5 witness (id "3"). -/
def wC : Product :=
  { wA with id := "3", name := "C", sku := "SKU-C" }

/-- Witness for C5, realizing Scenario E: a filtered view of ids 1, 2, 3 of
which 1 and 2 are selected, plus the outside id 4 selected; the result is
the union, four ids in total. -/
theorem selectAllVisible_tristate_witness :
    ([wA, wB, wC] : List Product) ≠ [] ∧
    (¬ ∀ p ∈ [wA, wB, wC], p.id ∈ ({"1", "2", "4"} : Finset String)) ∧
    handleSelectAll [wA, wB, wC] {"1", "2", "4"}
      = ({"1", "2", "4"} : Finset String) ∪ ([wA, wB, wC].map Product.id).toFinset ∧
    (handleSelectAll [wA, wB, wC] {"1", "2", "4"}).card = 4 :=
  ⟨by decide, by decide,
    (selectAllVisible_tristate [wA, wB, wC] {"1", "2", "4"} (by decide)).2 (by decide),
    by decide⟩

/-- C1: a zero-quantity product is counted by the dashboard `lowStockItems`
statistic (threshold `quantity < 10`), yet is excluded from the table's
"Low Stock" filter bucket (`0 < quantity < 10`), for every snapshot and
every search / category sub-filter. -/
theorem lowStock_zero_counted_not_filtered
    (products : List Product) (p : Product) (searchTerm cat : String)
    (hmem : p ∈ products) (hq : p.quantity = 0) :
    (stats products).lowStockItems
        = (products.filter (fun q => decide (q.quantity < 10))).length ∧
    p ∈ products.filter (fun q => decide (q.quantity < 10)) ∧
    p ∉ filteredProducts products searchTerm cat "Low Stock" := by
  refine ⟨rfl, ?_, ?_⟩
  · simp [List.mem_filter, hmem, hq]
  · simp [filteredProducts, List.mem_filter, matchesStock, hq]

/-- Concrete zero-quantity product for the C1 witness. -/
def pZero : Product :=
  { id := "9", name := "Ghost Item", sku := "GHO-000", category := .other,
    price := 10, quantity := 0, description := "", lastUpdated := "t",
    history := [] }

/-- Witness for C1 at the one-product snapshot `[pZero]`. -/
theorem lowStock_zero_counted_not_filtered_witness :
    pZero ∈ [pZero] ∧ pZero.quantity = 0 ∧
    ((stats [pZero]).lowStockItems
        = ([pZero].filter (fun q => decide (q.quantity < 10))).length ∧
      pZero ∈ [pZero].filter (fun q => decide (q.quantity < 10)) ∧
      pZero ∉ filteredProducts [pZero] "" "All" "Low Stock") :=
  ⟨by decide, rfl,
    lowStock_zero_counted_not_filtered [pZero] pZero "" "All" (by decide) rfl⟩

/-- C7: `delete` and `batchDelete` tolerate absent ids: deleting twice
equals deleting once, deleting an id that no record carries leaves the
catalog unchanged (and raises no error), membership after a batch delete is
exactly the non-matching records, and a batch delete ignores ids that are
unknown to the catalog. -/
theorem delete_tolerant :
    (∀ (confirm : Bool) (id : String) (products : List Product),
        handleDeleteProduct confirm id (handleDeleteProduct confirm id products)
          = handleDeleteProduct confirm id products) ∧
    (∀ (id : String) (products : List Product), (∀ p ∈ products, p.id ≠ id) →
        handleDeleteProduct true id products = products) ∧
    (∀ (ids : List String) (products : List Product) (p : Product),
        p ∈ handleBatchDelete true ids products ↔
          p ∈ products ∧ ids.contains p.id = false) ∧
    (∀ (ids : List String) (products : List Product),
        handleBatchDelete true ids products
          = handleBatchDelete true
              (ids.filter (fun i => (products.map Product.id).contains i))
              products) := by
  refine ⟨?_, ?_, ?_, ?_⟩
  · intro confirm id products
    cases confirm
    · rfl
    · simp [handleDeleteProduct, List.filter_filter]
  · intro id products h
    simp only [handleDeleteProduct, if_true]
    apply List.filter_eq_self.mpr
    intro p hp
    simpa using h p hp
  · intro ids products p
    simp [handleBatchDelete, List.mem_filter]
  · intro ids products
    simp only [handleBatchDelete, if_true]
    apply List.filter_congr
    intro p hp
    have hknown : p.id ∈ products.map Product.id :=
      List.mem_map_of_mem Product.id hp
    by_cases hin : p.id ∈ ids
    · have : p.id ∈ ids.filter (fun i => (products.map Product.id).contains i) :=
        List.mem_filter.mpr ⟨hin, by simpa [List.elem_iff] using hknown⟩
      simp [List.elem_iff, hin, this]
      exact ⟨p, hp, rfl⟩
    · have : p.id ∉ ids.filter (fun i => (products.map Product.id).contains i) :=
        fun hc => hin (List.mem_filter.mp hc).1
      simp [List.elem_iff, hin, this]

/-- Witness for C7's absent-id clause: deleting the unknown id "zz" from the
two-product catalog `[wA, wB]` changes nothing. -/
theorem delete_tolerant_witness :
    (∀ p ∈ ([wA, wB] : List Product), p.id ≠ "zz") ∧
    handleDeleteProduct true "zz" [wA, wB] = [wA, wB] :=
  ⟨by decide, delete_tolerant.2.1 "zz" [wA, wB] (by decide)⟩

/-- Concrete product for the C2 counterexample: a stale `lastUpdated`. -/
def p2ex : Product :=
  { id := "2", name := "Wireless Mech Keyboard", sku := "ELE-045",
    category := .electronics, price := 129, quantity := 4,
    description := "Mechanical keyboard with RGB and brown switches.",
    lastUpdated := "2024-01-01T00:00:00.000Z", history := [8, 6, 5, 7, 5, 4, 4] }

/-- Counterexample for C2: marking product "2" as low stock at a current
time of 2025-06-01 sets its quantity to 5 but leaves `lastUpdated` at the
stale 2024-01-01 value, so the handler differs from the spec's
`batchSetQuantity`, which would stamp the timestamp. -/
theorem batchSetQuantity_no_timestamp_cex :
    handleBatchLowStock ["2"] [p2ex] = [{ p2ex with quantity := 5 }] ∧
    (handleBatchLowStock ["2"] [p2ex]).map Product.lastUpdated
        = ["2024-01-01T00:00:00.000Z"] ∧
    handleBatchLowStock ["2"] [p2ex]
        ≠ batchSetQuantitySpec "2025-06-01T00:00:00.000Z" ["2"] 5 [p2ex] :=
  ⟨rfl, rfl, by decide⟩

/-- C2 as amended: the bulk "mark as low stock" action sets `quantity` to
the fixed value 5 on every record whose id is in the given set and leaves
every other field — `lastUpdated` included — unchanged; records whose id is
not in the set are entirely unchanged. -/
theorem batchSetQuantity_amended (ids : List String) (products : List Product) :
    List.Forall₂ (fun p q =>
        q.id = p.id ∧ q.name = p.name ∧ q.sku = p.sku ∧
        q.category = p.category ∧ q.price = p.price ∧
        q.description = p.description ∧ q.lastUpdated = p.lastUpdated ∧
        q.history = p.history ∧
        ((ids.contains p.id = true ∧ q.quantity = 5) ∨
          (ids.contains p.id = false ∧ q.quantity = p.quantity)))
      products (handleBatchLowStock ids products) := by
  induction products with
  | nil => simp [handleBatchLowStock]
  | cons p l ih =>
      simp only [handleBatchLowStock, List.map_cons]
      constructor
      · by_cases h : ids.contains p.id = true
        · rw [if_pos h]
          exact ⟨rfl, rfl, rfl, rfl, rfl, rfl, rfl, rfl, Or.inl ⟨h, rfl⟩⟩
        · rw [if_neg h]
          exact ⟨rfl, rfl, rfl, rfl, rfl, rfl, rfl, rfl,
            Or.inr ⟨Bool.eq_false_iff.mpr h, rfl⟩⟩
      · simpa [handleBatchLowStock] using ih

/-- Concrete product with a double quote in its name (Scenario D). -/
def dWidget : Product :=
  { id := "10", name := "6\" Widget", sku := "WID-006", category := .other,
    price := 2, quantity := 3, description := "A widget.",
    lastUpdated := "2024-01-01T00:00:00.000Z", history := [] }

/-- Concrete companion product for the CSV scenarios. -/
def dPlain : Product :=
  { id := "11", name := "Plain Box", sku := "PLA-001", category := .other,
    price := 4, quantity := 7, description := "A box.",
    lastUpdated := "2024-01-01T00:00:00.000Z", history := [] }

/-- Counterexample for C3: the SKU field of an exported row is emitted
verbatim, not wrapped in double quotes as the claim states for all text
fields — row fields index 2 carries `PLA-001`, not `"PLA-001"`. -/
theorem export_sku_unquoted_cex :
    (csvFields (fun _ => "0") dPlain)[2]? = some "PLA-001" ∧
    (csvFields (fun _ => "0") dPlain)[2]? ≠ some (quoteField "PLA-001") :=
  ⟨rfl, by decide⟩

/-- C3 as amended: for every non-empty filtered view the export is the
fixed header row followed by one comma-joined row per visible product in
filtered order, where `name` and `description` are wrapped in double quotes
with internal quotes doubled while the SKU is emitted verbatim; the name
`6" Widget` yields the field `"6"" Widget"`. -/
theorem export_csv_format (priceRepr : ℚ → String) (filtered : List Product)
    (hne : filtered ≠ []) :
    handleExportCSV priceRepr filtered
        = some (joinSep "\n"
            ("ID,Name,SKU,Category,Price,Quantity,Description,Last Updated" ::
              filtered.map (fun p => joinSep ","
                [p.id, quoteField p.name, p.sku, p.category.label,
                  priceRepr p.price, toString p.quantity,
                  quoteField p.description, p.lastUpdated]))) ∧
    quoteField "6\" Widget" = "\"6\"\" Widget\"" := by
  constructor
  · have hlen : ¬ filtered.length = 0 := by
      simpa [List.length_eq_zero] using hne
    have hhead : joinSep "," csvHeaders
        = "ID,Name,SKU,Category,Price,Quantity,Description,Last Updated" := by
      decide
    simp only [handleExportCSV, if_neg hlen, csvContent, csvFields, hhead]
  · decide

/-- Witness for C3 (amended), realizing Scenario D: exporting the
two-record view containing `6" Widget`. -/
theorem export_csv_format_witness :
    ([dWidget, dPlain] : List Product) ≠ [] ∧
    (handleExportCSV (fun _ => "0") [dWidget, dPlain]
        = some (joinSep "\n"
            ("ID,Name,SKU,Category,Price,Quantity,Description,Last Updated" ::
              [dWidget, dPlain].map (fun p => joinSep ","
                [p.id, quoteField p.name, p.sku, p.category.label,
                  (fun _ : ℚ => "0") p.price, toString p.quantity,
                  quoteField p.description, p.lastUpdated]))) ∧
      quoteField "6\" Widget" = "\"6\"\" Widget\"") :=
  ⟨by decide, export_csv_format (fun _ => "0") [dWidget, dPlain] (by decide)⟩
